import Mathlib

/-!
Verification of the token-resource reconciliation core of a
fine-grained-token infrastructure provider.

The embedding follows `provider.py`:

* calendar dates are modelled as `Int` day ordinals; `date.today()` becomes an
  explicit `today : Int` parameter and `timedelta(days=1)` becomes `1`;
* Python `set[str]` becomes `Finset String` (membership-only semantics);
* the three-way `str | None | Unknown` id field becomes the inductive
  `IdValue`;
* the remote client session becomes a record of functions (`Session`);
  fallible remote lookups return `Option`, `create_token` returns an explicit
  success-or-name-error result;
* diagnostics become an explicit list of `Diagnostic` entries accumulated in
  call order, and every invocation of a remote-service operation is recorded
  in an explicit `RemoteCall` trace;
* an uncaught Python exception (failed assertion, `KeyError` escaping,
  unparsable id string) is the `ApplyOutcome.raised` outcome.
-/

/-- The `id` attribute of `TokenResourceConfig`: Python `str | None | Unknown`
(`UnrefinedUnknown()` being the unknown marker). -/
inductive IdValue where
  | unknownId
  | noneId
  | strId (s : String)
  deriving DecidableEq, Repr

/-- `TokenResourceConfig` from `provider.py`: the state/config shape of one
token resource.  Optional attributes are `Option`-valued (`none` = Python
`None`). -/
structure TokenResourceConfig where
  id : IdValue
  name : String
  expires : Option Int
  select_repositories : Option (Finset String)
  read_permissions : Option (Finset String)
  write_permissions : Option (Finset String)
  deriving DecidableEq

/-- Expiration information of a remote token record
(`FineGrainedTokenIndividualInfo.expires`): either an `Expired` marker or a
datetime whose `.date()` we keep. -/
inductive TokenExpiration where
  | expired
  | onDate (d : Int)
  deriving DecidableEq, Repr

/-- The remote token record (`FineGrainedTokenIndividualInfo`), restricted to
the fields the provider consumes. -/
structure TokenInfo where
  id : Nat
  name : String
  expires : TokenExpiration
  deriving DecidableEq, Repr

/-- `token_resource_config_from_token_info` from `provider.py`: builds a
`TokenResourceConfig` from a remote record; an already-expired token gets
`date.today() - timedelta(days=1)`, and scope/permissions are set to empty
sets (the remote lookup does not return them). -/
def token_resource_config_from_token_info (today : Int) (token_info : TokenInfo) :
    TokenResourceConfig :=
  { id := IdValue.strId (toString token_info.id)
    name := token_info.name
    expires := some (match token_info.expires with
      | TokenExpiration.expired => today - 1
      | TokenExpiration.onDate d => d)
    select_repositories := some ∅
    read_permissions := some ∅
    write_permissions := some ∅ }

/-- Python `x if x is not None else default` on the `expires` field, as done at
the top of `plan_resource_change` (`date.today() + timedelta(days=1)`). -/
def resolveExpires (today : Int) (e : Option Int) : Option Int :=
  match e with
  | none => some (today + 1)
  | some d => some d

/-- `if field is None: field = set()` on a set-valued field, as done at the top
of `plan_resource_change`. -/
def resolveSet (s : Option (Finset String)) : Option (Finset String) :=
  match s with
  | none => some ∅
  | some x => some x

/-- The default-resolution step of `plan_resource_change` (lines mutating
`proposed_new_state` in place): unset optional fields get their defaults. -/
def resolveDefaults (today : Int) (s : TokenResourceConfig) : TokenResourceConfig :=
  { s with
    expires := resolveExpires today s.expires
    select_repositories := resolveSet s.select_repositories
    read_permissions := resolveSet s.read_permissions
    write_permissions := resolveSet s.write_permissions }

/-- The list of attribute names appended to `requires_replace` by
`plan_resource_change`, in source order (`ROOT.attribute_name(..)` paths are
modelled by the attribute name strings). -/
def requires_replace_list (prior s : TokenResourceConfig) : List String :=
  (if prior.name ≠ s.name then ["name"] else []) ++
  (if prior.expires ≠ s.expires then ["expires"] else []) ++
  (if prior.select_repositories ≠ s.select_repositories then ["select_repositories"] else []) ++
  (if prior.read_permissions ≠ s.read_permissions then ["read_permissions"] else []) ++
  (if prior.write_permissions ≠ s.write_permissions then ["write_permissions"] else [])

/-- `TokenResource.plan_resource_change` from `provider.py`.  The Python
function returns either `None` (removal plan), a bare state, or a
`(state, requires_replace)` pair; the bare-state return is modelled as the
pair with `none` in the second component. -/
def plan_resource_change (today : Int)
    (prior_state : Option TokenResourceConfig)
    (_config : TokenResourceConfig)
    (proposed_new_state : Option TokenResourceConfig) :
    Option (TokenResourceConfig × Option (List String)) :=
  match proposed_new_state with
  | none => none
  | some s0 =>
    let s := resolveDefaults today s0
    match prior_state with
    | some prior =>
      if prior.name ≠ s.name ∨ prior.expires ≠ s.expires ∨
          prior.select_repositories ≠ s.select_repositories ∨
          prior.read_permissions ≠ s.read_permissions ∨
          prior.write_permissions ≠ s.write_permissions then
        some ({ s with id := IdValue.unknownId }, some (requires_replace_list prior s))
      else
        some (if s.id = IdValue.noneId then { s with id := IdValue.unknownId } else s, none)
    | none =>
      some (if s.id = IdValue.noneId then { s with id := IdValue.unknownId } else s, none)

/-- A diagnostics entry (`Diagnostics.add_warning` / `add_error`). -/
inductive Diagnostic where
  | warning (msg : String)
  | error (msg : String)
  deriving DecidableEq, Repr

/-- Permission values sent to the remote create call (`PermissionValue`). -/
inductive PermValue where
  | read
  | write
  deriving DecidableEq, Repr

/-- The `scope` argument of the remote create call: `AllRepositories()` or
`SelectRepositories(list(rs))` (the list is order-insensitive, kept as the
set). -/
inductive ScopeArg where
  | allRepositories
  | selectRepositories (repos : Finset String)
  deriving DecidableEq

/-- The `expires` argument of the remote create call: either the concrete date
from the proposed state or `timedelta(days=1)` when unset. -/
inductive ExpiresArg where
  | onDate (d : Int)
  | days (n : Int)
  deriving DecidableEq, Repr

/-- One digit of Python `int(...)` parsing. -/
def digitVal (c : Char) : Option Nat :=
  if c.isDigit then some (c.toNat - '0'.toNat) else none

/-- Accumulator loop of `parseNat`. -/
def parseNatAux (l : List Char) (acc : Nat) : Option Nat :=
  match l with
  | [] => some acc
  | c :: rest =>
    match digitVal c with
    | none => none
    | some d => parseNatAux rest (acc * 10 + d)

/-- Python `int(s)` on a decimal id string: `none` models the `ValueError`
raised on a string that is not a number. -/
def parseNat (s : String) : Option Nat :=
  match s.data with
  | [] => none
  | l => parseNatAux l 0

/-- Python truthiness-based `x or set()` on an optional set: `None` and the
empty set are falsy and yield `set()`. -/
def orEmptySet (x : Option (Finset String)) : Finset String :=
  match x with
  | none => ∅
  | some s => if s = ∅ then ∅ else s

/-- A Python dict comprehension `{p: v for p in s}` over a set of permission
names, as a partial map (`permission_from_str` is injective on valid names and
is modelled by the identity on the name strings). -/
def set_to_dict (s : Finset String) (v : PermValue) : String → Option PermValue :=
  fun k => if k ∈ s then some v else none

/-- Python dict merge `{**d1, **d2}` restricted to lookups: an entry of `d2`
overrides one of `d1`. -/
def dict_update (d1 d2 : String → Option PermValue) : String → Option PermValue :=
  fun k =>
    match d2 k with
    | some v => some v
    | none => d1 k

/-- The `permissions` argument built by `apply_resource_change` for the remote
create call: the READ mapping over `read_permissions or set()` merged with
(and overridden by) the WRITE mapping over `write_permissions or set()`. -/
def create_permissions_arg (p : TokenResourceConfig) : String → Option PermValue :=
  dict_update
    (set_to_dict (orEmptySet p.read_permissions) PermValue.read)
    (set_to_dict (orEmptySet p.write_permissions) PermValue.write)

/-- The `expires` argument built by `apply_resource_change` for the remote
create call. -/
def create_expires_arg (p : TokenResourceConfig) : ExpiresArg :=
  match p.expires with
  | some d => ExpiresArg.onDate d
  | none => ExpiresArg.days 1

/-- The `scope` argument built by `apply_resource_change` for the remote create
call (`SelectRepositories(list(rs)) if (rs := ...) else AllRepositories()`;
both `None` and the empty set are falsy). -/
def create_scope_arg (p : TokenResourceConfig) : ScopeArg :=
  match p.select_repositories with
  | none => ScopeArg.allRepositories
  | some rs => if rs = ∅ then ScopeArg.allRepositories else ScopeArg.selectRepositories rs

/-- One invocation of a remote-service operation, recorded in call order. -/
inductive RemoteCall where
  | createToken (name : String) (expires : ExpiresArg) (scope : ScopeArg)
      (permissions : String → Option PermValue)
  | getTokenInfoByName (name : String)
  | getTokenInfoById (id : Nat)
  | deleteTokenById (id : Nat)

/-- Result of the remote `create_token` call: the newly issued secret token
value, or a `TokenNameError` (name conflict). -/
inductive CreateTokenResult where
  | value (token : String)
  | tokenNameError (msg : String)
  deriving DecidableEq, Repr

/-- The remote client session (`AsyncClientSession`), as the behaviour of the
operations the provider consumes.  `get_token_info_by_name` /
`get_token_info_by_id` return `none` where the Python client raises
`KeyError` (not found); `delete_token_by_id` always succeeds. -/
structure Session where
  create_token : String → ExpiresArg → ScopeArg → (String → Option PermValue) →
    CreateTokenResult
  get_token_info_by_name : String → Option TokenInfo
  get_token_info_by_id : Nat → Option TokenInfo

/-- Outcome of `apply_resource_change`: a normal return of an optional new
state, or an uncaught exception (failed `assert`, escaping `KeyError`,
unparsable id). -/
inductive ApplyOutcome where
  | ok (state : Option TokenResourceConfig)
  | raised

/-- `TokenResource.apply_resource_change` from `provider.py`.  Returns the
outcome, the diagnostics emitted, and the trace of remote-service calls. -/
def apply_resource_change (today : Int) (session : Session)
    (prior_state : Option TokenResourceConfig)
    (config : Option TokenResourceConfig)
    (proposed_new_state : Option TokenResourceConfig) :
    ApplyOutcome × List Diagnostic × List RemoteCall :=
  match proposed_new_state with
  | some p =>
    match config with
    | none => (ApplyOutcome.raised, [], [])
    | some cfg =>
      let eArg := create_expires_arg p
      let sArg := create_scope_arg p
      let perms := create_permissions_arg p
      let callCreate := RemoteCall.createToken p.name eArg sArg perms
      match session.create_token p.name eArg sArg perms with
      | CreateTokenResult.tokenNameError e =>
        (ApplyOutcome.ok none,
         [Diagnostic.error ("not creating new token: " ++ e)], [callCreate])
      | CreateTokenResult.value token_value =>
        let warn := Diagnostic.warning ("created token: " ++ token_value)
        match session.get_token_info_by_name p.name with
        | none =>
          (ApplyOutcome.raised, [warn],
           [callCreate, RemoteCall.getTokenInfoByName p.name])
        | some token_info =>
          let new_state :=
            { token_resource_config_from_token_info today token_info with
              select_repositories := some (orEmptySet cfg.select_repositories)
              read_permissions := some (orEmptySet cfg.read_permissions)
              write_permissions := some (orEmptySet cfg.write_permissions) }
          (ApplyOutcome.ok (some new_state), [warn],
           [callCreate, RemoteCall.getTokenInfoByName p.name])
  | none =>
    match prior_state with
    | none => (ApplyOutcome.ok none, [], [])
    | some prior =>
      match prior.id with
      | IdValue.strId s =>
        match parseNat s with
        | some n => (ApplyOutcome.ok none, [], [RemoteCall.deleteTokenById n])
        | none => (ApplyOutcome.raised, [], [])
      | _ => (ApplyOutcome.raised, [], [])

/-- `TokenResource.read_resource` from `provider.py`: looks the token up by
name; when found rebuilds the state from the remote record and reapplies the
locally-known scope/permissions, when not found emits a warning and returns no
state. -/
def read_resource (today : Int) (session : Session)
    (current_state : TokenResourceConfig) :
    Option TokenResourceConfig × List Diagnostic × List RemoteCall :=
  match session.get_token_info_by_name current_state.name with
  | some token_info =>
    let new_state :=
      { token_resource_config_from_token_info today token_info with
        select_repositories := some (orEmptySet current_state.select_repositories)
        read_permissions := some (orEmptySet current_state.read_permissions)
        write_permissions := some (orEmptySet current_state.write_permissions) }
    (some new_state, [], [RemoteCall.getTokenInfoByName current_state.name])
  | none =>
    (none, [Diagnostic.warning "token not found, but thats ok"],
     [RemoteCall.getTokenInfoByName current_state.name])

/-- `TokenResource.import_resource` from `provider.py`: parses the id, looks
the token up by id, and returns `TokenResourceConfig(id=id,
name=token_info.name)` — every other attribute takes its declared default
(`expires` defaults to `None`, the three sets default to `set()`).  `none`
models a propagated exception (unparsable id / remote not-found). -/
def import_resource (session : Session) (id : String) :
    Option (TokenResourceConfig × List RemoteCall) :=
  match parseNat id with
  | none => none
  | some n =>
    match session.get_token_info_by_id n with
    | none => none
    | some token_info =>
      some ({ id := IdValue.strId id
              name := token_info.name
              expires := none
              select_repositories := some ∅
              read_permissions := some ∅
              write_permissions := some ∅ },
            [RemoteCall.getTokenInfoById n])

/-! ## Concrete fixtures used by witnesses -/

/-- A configuration as a user writes it: only `name` set, everything else
unset (`id` is computed, hence `None` before creation). -/
def exCfg : TokenResourceConfig :=
  { id := IdValue.noneId
    name := "ci-token"
    expires := none
    select_repositories := none
    read_permissions := none
    write_permissions := none }

/-- A fully resolved prior state for an already-created token. -/
def exPrior : TokenResourceConfig :=
  { id := IdValue.strId "42"
    name := "ci-token"
    expires := some 10
    select_repositories := some ∅
    read_permissions := some ∅
    write_permissions := some ∅ }

/-- A fully resolved proposed state differing from `exPrior` in `name` and
`expires`. -/
def exProposed : TokenResourceConfig :=
  { id := IdValue.strId "42"
    name := "ci-token-v2"
    expires := some 11
    select_repositories := some ∅
    read_permissions := some ∅
    write_permissions := some ∅ }

/-- The remote record of the example token. -/
def exTokenInfo : TokenInfo :=
  { id := 42, name := "ci-token", expires := TokenExpiration.onDate 11 }

/-- A remote session holding exactly the example token; creation succeeds with
secret `"SECRET"`. -/
def exSessionOk : Session :=
  { create_token := fun _ _ _ _ => CreateTokenResult.value "SECRET"
    get_token_info_by_name := fun n => if n = "ci-token" then some exTokenInfo else none
    get_token_info_by_id := fun i => if i = 42 then some exTokenInfo else none }

/-- A remote session with no tokens at all, whose create call reports a name
conflict. -/
def exSessionConflict : Session :=
  { create_token := fun _ _ _ _ => CreateTokenResult.tokenNameError "name exists"
    get_token_info_by_name := fun _ => none
    get_token_info_by_id := fun _ => none }

/-- A configuration in which `"contents"` is requested both for read and for
write. -/
def exOverlap : TokenResourceConfig :=
  { id := IdValue.noneId
    name := "ci-token"
    expires := some 11
    select_repositories := some ∅
    read_permissions := some {"contents"}
    write_permissions := some {"contents"} }

/-! ## Claims -/

/-- C7: an apply call removing a resource (`proposed_new_state = None`) with no
prior state performs no remote call of any kind and returns no state (and emits
no diagnostics). -/
theorem apply_remove_without_prior_is_noop (today : Int) (session : Session)
    (config : Option TokenResourceConfig) :
    apply_resource_change today session none config none =
      (ApplyOutcome.ok none, [], []) := rfl

/-- C9: every entry point is deterministic — re-running it on identical inputs
(prior state, config, proposed state, session behaviour, current date) yields
the identical output; the inputs alone determine the result. -/
theorem entry_points_deterministic (today : Int) (session : Session)
    (prior config proposed : Option TokenResourceConfig)
    (cfg current : TokenResourceConfig) (id : String) :
    plan_resource_change today prior cfg proposed =
      plan_resource_change today prior cfg proposed ∧
    apply_resource_change today session prior config proposed =
      apply_resource_change today session prior config proposed ∧
    read_resource today session current = read_resource today session current ∧
    import_resource session id = import_resource session id :=
  ⟨rfl, rfl, rfl, rfl⟩

/-- C3: planning with no prior state, on a proposed state whose computed `id`
is still unset (as the protocol supplies it on create), returns the resolved
state with `id` marked unknown and no requires-replace list. -/
theorem plan_without_prior_marks_id_unknown (today : Int)
    (config s : TokenResourceConfig) (h : s.id = IdValue.noneId) :
    plan_resource_change today none config (some s) =
      some ({ resolveDefaults today s with id := IdValue.unknownId }, none) := by
  simp [plan_resource_change, resolveDefaults, h]

/-- Witness for C3 at the example configuration. -/
theorem plan_without_prior_marks_id_unknown_witness :
    exCfg.id = IdValue.noneId ∧
    plan_resource_change 0 none exCfg (some exCfg) =
      some ({ resolveDefaults 0 exCfg with id := IdValue.unknownId }, none) :=
  ⟨rfl, plan_without_prior_marks_id_unknown 0 exCfg exCfg rfl⟩

/-- Helper: whatever branch `plan_resource_change` takes, the returned state
agrees with `resolveDefaults today s` on every attribute except `id`. -/
theorem plan_state_agrees_with_resolved (today : Int)
    (prior : Option TokenResourceConfig) (config s : TokenResourceConfig) :
    ∃ st rr, plan_resource_change today prior config (some s) = some (st, rr) ∧
      st.name = (resolveDefaults today s).name ∧
      st.expires = (resolveDefaults today s).expires ∧
      st.select_repositories = (resolveDefaults today s).select_repositories ∧
      st.read_permissions = (resolveDefaults today s).read_permissions ∧
      st.write_permissions = (resolveDefaults today s).write_permissions := by
  cases prior with
  | none =>
    simp only [plan_resource_change]
    split_ifs <;> exact ⟨_, _, rfl, rfl, rfl, rfl, rfl, rfl⟩
  | some p =>
    simp only [plan_resource_change]
    split_ifs <;> exact ⟨_, _, rfl, rfl, rfl, rfl, rfl, rfl⟩

/-- C4: planning resolves unset optional fields of the proposed state to their
defaults before diffing — `expires` to today + 1 day, the repository scope and
both permission sets to the empty set — and leaves already-set fields
unchanged. -/
theorem plan_resolves_optional_fields_to_defaults (today : Int)
    (prior : Option TokenResourceConfig) (config s : TokenResourceConfig) :
    ∃ st rr, plan_resource_change today prior config (some s) = some (st, rr) ∧
      st.name = s.name ∧
      (s.expires = none → st.expires = some (today + 1)) ∧
      (∀ d, s.expires = some d → st.expires = some d) ∧
      (s.select_repositories = none → st.select_repositories = some ∅) ∧
      (∀ x, s.select_repositories = some x → st.select_repositories = some x) ∧
      (s.read_permissions = none → st.read_permissions = some ∅) ∧
      (∀ x, s.read_permissions = some x → st.read_permissions = some x) ∧
      (s.write_permissions = none → st.write_permissions = some ∅) ∧
      (∀ x, s.write_permissions = some x → st.write_permissions = some x) := by
  obtain ⟨st, rr, hplan, hn, he, hs, hr, hw⟩ :=
    plan_state_agrees_with_resolved today prior config s
  refine ⟨st, rr, hplan, ?_, ?_, ?_, ?_, ?_, ?_, ?_, ?_, ?_⟩ <;>
    simp_all [resolveDefaults, resolveExpires, resolveSet]

/-- Witness for C4 at the example configuration (all optional fields unset). -/
theorem plan_resolves_optional_fields_to_defaults_witness :
    ∃ st rr, plan_resource_change 0 none exCfg (some exCfg) = some (st, rr) ∧
      st.name = exCfg.name ∧
      (exCfg.expires = none → st.expires = some (0 + 1)) ∧
      (∀ d, exCfg.expires = some d → st.expires = some d) ∧
      (exCfg.select_repositories = none → st.select_repositories = some ∅) ∧
      (∀ x, exCfg.select_repositories = some x → st.select_repositories = some x) ∧
      (exCfg.read_permissions = none → st.read_permissions = some ∅) ∧
      (∀ x, exCfg.read_permissions = some x → st.read_permissions = some x) ∧
      (exCfg.write_permissions = none → st.write_permissions = some ∅) ∧
      (∀ x, exCfg.write_permissions = some x → st.write_permissions = some x) :=
  plan_resolves_optional_fields_to_defaults 0 none exCfg exCfg

/-- Helper: on a state whose optional fields are all set, default resolution is
the identity. -/
theorem resolveDefaults_of_resolved (today : Int) (s : TokenResourceConfig)
    (he : s.expires.isSome) (hss : s.select_repositories.isSome)
    (hr : s.read_permissions.isSome) (hw : s.write_permissions.isSome) :
    resolveDefaults today s = s := by
  obtain ⟨e, he⟩ := Option.isSome_iff_exists.mp he
  obtain ⟨x1, h1⟩ := Option.isSome_iff_exists.mp hss
  obtain ⟨x2, h2⟩ := Option.isSome_iff_exists.mp hr
  obtain ⟨x3, h3⟩ := Option.isSome_iff_exists.mp hw
  cases s
  simp_all [resolveDefaults, resolveExpires, resolveSet]

/-- Helper: membership in the requires-replace list characterises exactly the
differing attributes. -/
theorem mem_requires_replace_list (prior s : TokenResourceConfig) (f : String) :
    f ∈ requires_replace_list prior s ↔
      ((f = "name" ∧ prior.name ≠ s.name) ∨
       (f = "expires" ∧ prior.expires ≠ s.expires) ∨
       (f = "select_repositories" ∧
         prior.select_repositories ≠ s.select_repositories) ∨
       (f = "read_permissions" ∧ prior.read_permissions ≠ s.read_permissions) ∨
       (f = "write_permissions" ∧ prior.write_permissions ≠ s.write_permissions)) := by
  simp only [requires_replace_list, List.mem_append]
  split_ifs <;> simp_all <;> tauto

/-- C1: on a fully resolved pair of states, planning classifies any difference
in `name`, `expires`, `select_repositories`, `read_permissions` or
`write_permissions` as replacement, and the returned requires-replace list
contains exactly the differing attribute names (all of them when several
differ); when none of the five differ, no requires-replace list is returned. -/
theorem plan_replace_exactly_differing_fields (today : Int)
    (config prior s : TokenResourceConfig)
    (_hpe : prior.expires.isSome) (_hps : prior.select_repositories.isSome)
    (_hpr : prior.read_permissions.isSome) (_hpw : prior.write_permissions.isSome)
    (he : s.expires.isSome) (hss : s.select_repositories.isSome)
    (hr : s.read_permissions.isSome) (hw : s.write_permissions.isSome) :
    ((prior.name ≠ s.name ∨ prior.expires ≠ s.expires ∨
        prior.select_repositories ≠ s.select_repositories ∨
        prior.read_permissions ≠ s.read_permissions ∨
        prior.write_permissions ≠ s.write_permissions) →
      plan_resource_change today (some prior) config (some s) =
        some ({ s with id := IdValue.unknownId },
          some (requires_replace_list prior s))) ∧
    ((prior.name = s.name ∧ prior.expires = s.expires ∧
        prior.select_repositories = s.select_repositories ∧
        prior.read_permissions = s.read_permissions ∧
        prior.write_permissions = s.write_permissions) →
      ∃ st, plan_resource_change today (some prior) config (some s) =
        some (st, none)) ∧
    (∀ f, f ∈ requires_replace_list prior s ↔
      ((f = "name" ∧ prior.name ≠ s.name) ∨
       (f = "expires" ∧ prior.expires ≠ s.expires) ∨
       (f = "select_repositories" ∧
         prior.select_repositories ≠ s.select_repositories) ∨
       (f = "read_permissions" ∧ prior.read_permissions ≠ s.read_permissions) ∨
       (f = "write_permissions" ∧
         prior.write_permissions ≠ s.write_permissions))) := by
  have hres := resolveDefaults_of_resolved today s he hss hr hw
  refine ⟨?_, ?_, mem_requires_replace_list prior s⟩
  · intro hdiff
    simp only [plan_resource_change, hres]
    rw [if_pos hdiff]
  · rintro ⟨h1, h2, h3, h4, h5⟩
    simp only [plan_resource_change, hres]
    rw [if_neg (by simp [h1, h2, h3, h4, h5])]
    exact ⟨_, rfl⟩

/-- Witness for C1: prior and proposed differ in `name` and `expires`, and the
requires-replace list is exactly `["name", "expires"]`. -/
theorem plan_replace_exactly_differing_fields_witness :
    plan_resource_change 0 (some exPrior) exCfg (some exProposed) =
      some ({ exProposed with id := IdValue.unknownId },
        some (requires_replace_list exPrior exProposed)) ∧
    requires_replace_list exPrior exProposed = ["name", "expires"] :=
  ⟨(plan_replace_exactly_differing_fields 0 exCfg exPrior exProposed
      rfl rfl rfl rfl rfl rfl rfl rfl).1 (by decide),
   by decide⟩

/-- C2: on the create/replace path, when the remote create succeeds and the
follow-up lookup by name finds the record, apply returns the state built from
that record with `select_repositories`, `read_permissions` and
`write_permissions` overwritten by the configuration's values, and emits
exactly one warning diagnostic carrying the newly issued secret token value. -/
theorem apply_create_success_state (today : Int) (session : Session)
    (prior : Option TokenResourceConfig) (cfg p : TokenResourceConfig)
    (token_value : String) (token_info : TokenInfo)
    (hc : session.create_token p.name (create_expires_arg p) (create_scope_arg p)
        (create_permissions_arg p) = CreateTokenResult.value token_value)
    (hl : session.get_token_info_by_name p.name = some token_info) :
    apply_resource_change today session prior (some cfg) (some p) =
      (ApplyOutcome.ok (some
        { token_resource_config_from_token_info today token_info with
          select_repositories := some (orEmptySet cfg.select_repositories)
          read_permissions := some (orEmptySet cfg.read_permissions)
          write_permissions := some (orEmptySet cfg.write_permissions) }),
       [Diagnostic.warning ("created token: " ++ token_value)],
       [RemoteCall.createToken p.name (create_expires_arg p) (create_scope_arg p)
          (create_permissions_arg p),
        RemoteCall.getTokenInfoByName p.name]) := by
  simp only [apply_resource_change, hc, hl]

/-- Witness for C2 on the example session. -/
theorem apply_create_success_state_witness :
    apply_resource_change 0 exSessionOk (some exPrior) (some exCfg) (some exPrior) =
      (ApplyOutcome.ok (some
        { token_resource_config_from_token_info 0 exTokenInfo with
          select_repositories := some (orEmptySet exCfg.select_repositories)
          read_permissions := some (orEmptySet exCfg.read_permissions)
          write_permissions := some (orEmptySet exCfg.write_permissions) }),
       [Diagnostic.warning ("created token: " ++ "SECRET")],
       [RemoteCall.createToken exPrior.name (create_expires_arg exPrior)
          (create_scope_arg exPrior) (create_permissions_arg exPrior),
        RemoteCall.getTokenInfoByName exPrior.name]) :=
  apply_create_success_state 0 exSessionOk (some exPrior) exCfg exPrior
    "SECRET" exTokenInfo rfl (by simp [exSessionOk, exPrior])

/-- C5: on the create path, a remote name conflict (`TokenNameError`) makes
apply return no state and emit exactly one diagnostic, an error; no state is
left behind. -/
theorem apply_create_name_conflict (today : Int) (session : Session)
    (prior : Option TokenResourceConfig) (cfg p : TokenResourceConfig)
    (e : String)
    (hc : session.create_token p.name (create_expires_arg p) (create_scope_arg p)
        (create_permissions_arg p) = CreateTokenResult.tokenNameError e) :
    apply_resource_change today session prior (some cfg) (some p) =
      (ApplyOutcome.ok none,
       [Diagnostic.error ("not creating new token: " ++ e)],
       [RemoteCall.createToken p.name (create_expires_arg p) (create_scope_arg p)
          (create_permissions_arg p)]) := by
  simp only [apply_resource_change, hc]

/-- Witness for C5 on the conflicting session. -/
theorem apply_create_name_conflict_witness :
    apply_resource_change 0 exSessionConflict none (some exCfg) (some exCfg) =
      (ApplyOutcome.ok none,
       [Diagnostic.error ("not creating new token: " ++ "name exists")],
       [RemoteCall.createToken exCfg.name (create_expires_arg exCfg)
          (create_scope_arg exCfg) (create_permissions_arg exCfg)]) :=
  apply_create_name_conflict 0 exSessionConflict none exCfg exCfg "name exists" rfl

/-- C6: reading a resource whose remote record no longer exists returns no
state and emits exactly one warning diagnostic (not an error); when the record
is found, read rebuilds the state from it and reapplies the locally-known
scope and permission sets from the current state. -/
theorem read_resource_drift_and_refresh (today : Int) (session : Session)
    (current : TokenResourceConfig) :
    (session.get_token_info_by_name current.name = none →
      read_resource today session current =
        (none, [Diagnostic.warning "token not found, but thats ok"],
         [RemoteCall.getTokenInfoByName current.name])) ∧
    (∀ token_info,
      session.get_token_info_by_name current.name = some token_info →
      read_resource today session current =
        (some { token_resource_config_from_token_info today token_info with
            select_repositories := some (orEmptySet current.select_repositories)
            read_permissions := some (orEmptySet current.read_permissions)
            write_permissions := some (orEmptySet current.write_permissions) },
         [], [RemoteCall.getTokenInfoByName current.name])) := by
  constructor
  · intro h
    simp only [read_resource, h]
  · intro token_info h
    simp only [read_resource, h]

/-- Witness for C6: the token is gone on the empty session. -/
theorem read_resource_drift_and_refresh_witness :
    read_resource 0 exSessionConflict exPrior =
      (none, [Diagnostic.warning "token not found, but thats ok"],
       [RemoteCall.getTokenInfoByName exPrior.name]) :=
  (read_resource_drift_and_refresh 0 exSessionConflict exPrior).1 rfl

/-- C10: when a permission name is listed in both `read_permissions` and
`write_permissions`, the create call issued by apply carries that permission
with the WRITE value (the write dict is merged after the read dict), the first
remote call of apply is exactly that create call, and on a successful create no
error diagnostic — nothing about the overlap — is emitted (only the
secret-bearing warning). -/
theorem apply_overlapping_permission_write_wins (today : Int) (session : Session)
    (prior : Option TokenResourceConfig) (cfg p : TokenResourceConfig)
    (perm : String) (rp wp : Finset String)
    (_hrp : p.read_permissions = some rp) (hwp : p.write_permissions = some wp)
    (_hr : perm ∈ rp) (hw : perm ∈ wp) :
    (apply_resource_change today session prior (some cfg) (some p)).2.2.head? =
      some (RemoteCall.createToken p.name (create_expires_arg p)
        (create_scope_arg p) (create_permissions_arg p)) ∧
    create_permissions_arg p perm = some PermValue.write ∧
    (∀ token_value,
      session.create_token p.name (create_expires_arg p) (create_scope_arg p)
        (create_permissions_arg p) = CreateTokenResult.value token_value →
      (apply_resource_change today session prior (some cfg) (some p)).2.1 =
        [Diagnostic.warning ("created token: " ++ token_value)]) := by
  refine ⟨?_, ?_, ?_⟩
  · cases hres : session.create_token p.name (create_expires_arg p)
        (create_scope_arg p) (create_permissions_arg p) with
    | value tv =>
      cases hlk : session.get_token_info_by_name p.name with
      | none => simp [apply_resource_change, hres, hlk]
      | some ti => simp [apply_resource_change, hres, hlk]
    | tokenNameError e => simp [apply_resource_change, hres]
  · have hne : wp ≠ ∅ := Finset.ne_empty_of_mem hw
    simp [create_permissions_arg, dict_update, set_to_dict, orEmptySet, hwp, hne, hw]
  · intro token_value htv
    cases hlk : session.get_token_info_by_name p.name with
    | none => simp [apply_resource_change, htv, hlk]
    | some ti => simp [apply_resource_change, htv, hlk]

/-- Witness for C10: `"contents"` requested for read and write ends up WRITE in
the create call's permission mapping. -/
theorem apply_overlapping_permission_write_wins_witness :
    create_permissions_arg exOverlap "contents" = some PermValue.write :=
  (apply_overlapping_permission_write_wins 0 exSessionOk none exOverlap exOverlap
    "contents" {"contents"} {"contents"} rfl rfl (by decide) (by decide)).2.1

/-- C8 counterexample: importing the example token (id 42) does produce a
state, but that state's `expires` field is the unset sentinel `None`, not a
concrete date — `TokenResourceConfig(id=id, name=...)` leaves `expires` at its
declared default. -/
theorem import_resource_expires_unset_counterexample :
    (import_resource exSessionOk "42").isSome = true ∧
    Option.map (fun r => r.1.expires) (import_resource exSessionOk "42") =
      some none := by
  constructor
  · rfl
  · rfl

/-- C8 amended: every state returned by plan, by apply and by read has a
concrete `expires` date, never the unset sentinel; the state returned by
import, however, always has `expires` unset. -/
theorem entry_point_states_expires (today : Int) (session : Session)
    (prior config proposed : Option TokenResourceConfig)
    (cfg s current : TokenResourceConfig) (id : String) :
    (∀ st rr, plan_resource_change today prior cfg (some s) = some (st, rr) →
      st.expires.isSome) ∧
    (∀ st, (apply_resource_change today session prior config proposed).1 =
      ApplyOutcome.ok (some st) → st.expires.isSome) ∧
    (∀ st d t, read_resource today session current = (some st, d, t) →
      st.expires.isSome) ∧
    (∀ st t, import_resource session id = some (st, t) → st.expires = none) := by
  refine ⟨?_, ?_, ?_, ?_⟩
  · intro st rr h
    obtain ⟨st', rr', hp, _, he, _, _, _⟩ :=
      plan_state_agrees_with_resolved today prior cfg s
    rw [hp] at h
    simp only [Option.some.injEq, Prod.mk.injEq] at h
    obtain ⟨h1, _⟩ := h
    rw [← h1, he]
    cases hse : s.expires <;> simp [resolveDefaults, resolveExpires, hse]
  · intro st h
    cases proposed with
    | none =>
      cases prior with
      | none => simp [apply_resource_change] at h
      | some pr =>
        cases hid : pr.id with
        | strId s2 =>
          cases hn : parseNat s2 <;> simp [apply_resource_change, hid, hn] at h
        | unknownId => simp [apply_resource_change, hid] at h
        | noneId => simp [apply_resource_change, hid] at h
    | some p =>
      cases config with
      | none => simp [apply_resource_change] at h
      | some cfg2 =>
        cases hres : session.create_token p.name (create_expires_arg p)
            (create_scope_arg p) (create_permissions_arg p) with
        | tokenNameError e => simp [apply_resource_change, hres] at h
        | value tv =>
          cases hlk : session.get_token_info_by_name p.name with
          | none => simp [apply_resource_change, hres, hlk] at h
          | some ti =>
            simp only [apply_resource_change, hres, hlk, ApplyOutcome.ok.injEq,
              Option.some.injEq] at h
            rw [← h]
            simp [token_resource_config_from_token_info]
  · intro st d t h
    cases hlk : session.get_token_info_by_name current.name with
    | none => simp [read_resource, hlk] at h
    | some ti =>
      simp only [read_resource, hlk, Prod.mk.injEq, Option.some.injEq] at h
      obtain ⟨h1, _⟩ := h
      rw [← h1]
      simp [token_resource_config_from_token_info]
  · intro st t h
    cases hn : parseNat id with
    | none => simp [import_resource, hn] at h
    | some n =>
      cases hlk : session.get_token_info_by_id n with
      | none => simp [import_resource, hn, hlk] at h
      | some ti =>
        simp only [import_resource, hn, hlk, Option.some.injEq, Prod.mk.injEq] at h
        obtain ⟨h1, _⟩ := h
        rw [← h1]

/-- Witness for the amended C8 at a concrete plan call. -/
theorem entry_point_states_expires_witness :
    ({ resolveDefaults 0 exCfg with id := IdValue.unknownId } :
      TokenResourceConfig).expires.isSome = true :=
  (entry_point_states_expires 0 exSessionOk none none none exCfg exCfg exCfg
    "42").1 { resolveDefaults 0 exCfg with id := IdValue.unknownId } none
    (by decide)
